import Mathlib

/-!
Shallow embedding of the security core of the codecontext-ai execution engine
(src/execution-engine/src/security/moduleBlocker.ts, environmentBlocker.ts,
securityManager.ts and the TimeoutManager), together with theorems settling
the frozen claims about it.

Modelling conventions:
* JavaScript strings are Lean strings (lists of characters).
* The singleton mutable state of each blocker is passed explicitly.
* Wall-clock quantities (timestamps, execution times, memory samples) are not
  computed from a clock; report fields derived from them are threaded through
  the state as plain numbers.
* A JavaScript RegExp with the g flag carries a mutable lastIndex; this
  is modelled by threading a list of lastIndex values (one per pattern)
  through the analyzer state, with the exact JS test semantics: a search
  starts at lastIndex, success sets lastIndex to the match end, failure
  resets it to 0.
-/

/-- Severity levels used by all violation records in the engine. -/
inductive Severity where
  | LOW
  | MEDIUM
  | HIGH
  | CRITICAL
deriving DecidableEq

/-- Risk levels of a SecurityReport (securityManager.ts riskLevel). -/
inductive RiskLevel where
  | LOW
  | MEDIUM
  | HIGH
  | CRITICAL
deriving DecidableEq

/-- moduleBlocker.ts SecurityViolation (timestamp and codeHash, which are
wall-clock and digest metadata unused by any control flow, are omitted). -/
structure SecurityViolation where
  type : String
  severity : Severity
  module : Option String
  patternSrc : Option String
  description : String
deriving DecidableEq

/-- environmentBlocker.ts EnvironmentViolation (timestamp omitted); the
source field named variable is rendered varName because it is a Lean
keyword. -/
structure EnvironmentViolation where
  type : String
  severity : Severity
  varName : Option String
  description : String
deriving DecidableEq

/-- Shape of the violation entries of a SecurityReport
(securityManager.ts lines 31-36). -/
structure ReportViolation where
  type : String
  severity : Severity
  description : String
  module : Option String
deriving DecidableEq

/-- The apostrophe character (code 39) as a one-character string. -/
def apos : String := String.singleton (Char.ofNat 39)

/- ### A small regex engine covering exactly the constructs used by
moduleBlocker.ts DANGEROUS_PATTERNS: case-insensitive literals, the
character class of the three quote characters, whitespace star, dot star
and one alternation group, all with the g and i flags. -/

/-- Single-character matchers appearing in the patterns. -/
inductive CharSet where
  | lit (c : Char)
  | oneOf (cs : List Char)
  | any
  | ws
deriving DecidableEq

/-- Does this character set match a character?  lit is case-insensitive
(the i flag); any is the regex dot, which does not match line terminators;
ws is the single whitespace class (ASCII whitespace forms; the inputs
considered here are ASCII). -/
def CharSet.matches : CharSet → Char → Bool
  | .lit c, d => c.toLower == d.toLower
  | .oneOf cs, d => cs.contains d
  | .any, d => !(['\n', '\r', ' ', ' '].contains d)
  | .ws, d => [' ', '\t', '\n', '\r', '\u000b', '\u000c'].contains d

/-- Regular expressions in the fragment used by the analyzer: the empty
regex, a character followed by a rest, an alternation, and a greedy star
over a single-character matcher followed by a rest. -/
inductive RE where
  | emp
  | cons (cs : CharSet) (rest : RE)
  | alt (a b : RE)
  | star (cs : CharSet) (rest : RE)
deriving DecidableEq

/-- Greedy star loop: consume as many matching characters as possible, then
backtrack trying the continuation f at each stop position, longest first
(JS greedy semantics). -/
def starLoop (f : List Char → Option (List Char)) (cs : CharSet) : List Char → Option (List Char)
  | [] => f []
  | c :: s =>
    if cs.matches c then
      match starLoop f cs s with
      | some r => some r
      | none => f (c :: s)
    else f (c :: s)

/-- Match a regex at the start of the input; on success return the remaining
suffix after the (leftmost-alternative, greedy) match. -/
def matchAt : RE → List Char → Option (List Char)
  | .emp, s => some s
  | .cons cs r, s =>
    match s with
    | [] => none
    | c :: t => if cs.matches c then matchAt r t else none
  | .alt a b, s =>
    match matchAt a s with
    | some t => some t
    | none => matchAt b s
  | .star cs r, s => starLoop (matchAt r) cs s

/-- Find the leftmost match of re in the given suffix, whose first
character sits at absolute position pos; return the absolute end position
of the match. -/
def searchFrom (re : RE) : List Char → Nat → Option Nat
  | [], pos =>
    match matchAt re [] with
    | some _ => some pos
    | none => none
  | c :: t, pos =>
    match matchAt re (c :: t) with
    | some rest => some (pos + ((c :: t).length - rest.length))
    | none => searchFrom re t (pos + 1)

/-- JS RegExp test on a g-flag regex: search from lastIndex; on success
return true and the new lastIndex (the match end), on failure return false
and reset lastIndex to 0. -/
def regexTest (re : RE) (lastIndex : Nat) (code : String) : Bool × Nat :=
  let s := code.data
  if lastIndex > s.length then (false, 0)
  else
    match searchFrom re (s.drop lastIndex) lastIndex with
    | some e => (true, e)
    | none => (false, 0)

/- ### The twelve DANGEROUS_PATTERNS of moduleBlocker.ts (lines 60-73),
in source order, each with its source text. -/

/-- Append the characters of s as case-insensitive literals before k. -/
def lits (s : String) (k : RE) : RE :=
  s.data.foldr (fun c r => RE.cons (CharSet.lit c) r) k

/-- The quote class of the require patterns: apostrophe, double quote,
backtick (character codes 39, 34, 96). -/
def quoteChars : List Char := [Char.ofNat 39, Char.ofNat 34, Char.ofNat 96]

/-- Build the regex matching a require call of the given module name with
optional whitespace and any of the three quote styles. -/
def requirePattern (m : String) : RE :=
  lits ("require") (RE.star .ws (lits ("(") (RE.star .ws (RE.cons (.oneOf quoteChars)
    (lits m (RE.cons (.oneOf quoteChars) (RE.star .ws (lits (")") RE.emp))))))))

/-- The process exit/kill/abort pattern. -/
def processKillPattern : RE :=
  lits ("process.") (RE.alt (lits ("exit") RE.emp)
    (RE.alt (lits ("kill") RE.emp) (lits ("abort") RE.emp)))

/-- Source text of a require pattern, as in moduleBlocker.ts. -/
def requirePatternSrc (m : String) : String :=
  "/require\\s*\\(\\s*[" ++ apos ++ "\"`]" ++ m ++ "[" ++ apos ++ "\"`]\\s*\\)/gi"

/-- DANGEROUS_PATTERNS: each entry is the regex source text paired with its
embedding.  Source order is preserved. -/
def DANGEROUS_PATTERNS : List (String × RE) :=
  [ (requirePatternSrc ("child_process"), requirePattern ("child_process")),
    (requirePatternSrc ("fs"), requirePattern ("fs")),
    (requirePatternSrc ("net"), requirePattern ("net")),
    (requirePatternSrc ("http"), requirePattern ("http")),
    (requirePatternSrc ("os"), requirePattern ("os")),
    ("/process\\.(exit|kill|abort)/gi", processKillPattern),
    ("/eval\\s*\\(/gi", lits ("eval") (RE.star .ws (lits ("(") RE.emp))),
    ("/Function\\s*\\(/gi", lits ("Function") (RE.star .ws (lits ("(") RE.emp))),
    ("/setTimeout.*eval/gi", lits ("setTimeout") (RE.star .any (lits ("eval") RE.emp))),
    ("/setInterval.*eval/gi", lits ("setInterval") (RE.star .any (lits ("eval") RE.emp))),
    ("/global\\./gi", lits ("global.") RE.emp),
    ("/globalThis\\./gi", lits ("globalThis.") RE.emp) ]

/-- The first five patterns are the denylisted capability-acquisition
patterns (require of child_process, fs, net, http, os). -/
def capabilityAcquisitionPatterns : List (String × RE) :=
  DANGEROUS_PATTERNS.take 5

/- ### ModuleSecurityManager state and analyzeCode -/

/-- Mutable state of the ModuleSecurityManager singleton: the shared
violation log and the lastIndex of each of the twelve g-flag pattern
regexes (all 0 on a freshly loaded module). -/
structure ModState where
  violations : List SecurityViolation
  lastIndices : List Nat
deriving DecidableEq

/-- A fresh ModuleSecurityManager state. -/
def freshModState : ModState :=
  { violations := [], lastIndices := List.replicate 12 0 }

/-- The violation recorded for a dangerous-pattern hit
(moduleBlocker.ts lines 275-283). -/
def mkPatternViolation (src : String) : SecurityViolation :=
  { type := "DANGEROUS_PATTERN"
    severity := .HIGH
    module := none
    patternSrc := some src
    description := "Dangerous pattern detected in code" }

/-- The violation recorded for oversized code
(moduleBlocker.ts lines 288-294). -/
def sizeViolation : SecurityViolation :=
  { type := "SUSPICIOUS_BEHAVIOR"
    severity := .MEDIUM
    module := none
    patternSrc := none
    description := "Code size exceeds reasonable limits" }

/-- Run the pattern list over the code, each pattern with its own
lastIndex, returning found violations (in pattern order) and updated
lastIndex values. -/
def patternScan (code : String) : List (String × RE) → List Nat → List SecurityViolation × List Nat
  | [], _ => ([], [])
  | _ :: _, [] => ([], [])
  | (src, re) :: ps, li :: lis =>
    let t := regexTest re li code
    let rest := patternScan code ps lis
    ((if t.1 then [mkPatternViolation src] else []) ++ rest.1, t.2 :: rest.2)

/-- Result shape of analyzeCode. -/
structure AnalysisResult where
  safe : Bool
  violations : List SecurityViolation
deriving DecidableEq

/-- ModuleSecurityManager.analyzeCode (moduleBlocker.ts lines 268-304):
scan the twelve dangerous patterns, add an oversize violation beyond 50000
characters, append everything found to the shared violation log, and report
safe iff no CRITICAL or HIGH severity finding. -/
def analyzeCode (st : ModState) (code : String) : AnalysisResult × ModState :=
  let scan := patternScan code DANGEROUS_PATTERNS st.lastIndices
  let sizeViolations := if code.length > 50000 then [sizeViolation] else []
  let foundViolations := scan.1 ++ sizeViolations
  let newState : ModState :=
    { violations := st.violations ++ foundViolations, lastIndices := scan.2 }
  let safeFlag :=
    (foundViolations.filter
      (fun v => v.severity == Severity.CRITICAL || v.severity == Severity.HIGH)).length == 0
  ({ safe := safeFlag, violations := foundViolations }, newState)

/-- The canonical denylisted-import input used below: require, open paren,
quoted fs, close paren. -/
def requireFsCode : String := "require(" ++ apos ++ "fs" ++ apos ++ ")"

example : (regexTest (requirePattern ("fs")) 0 requireFsCode).1 = true := by decide

example : (analyzeCode freshModState ("eval(")).1.safe = false := by decide

example :
    (analyzeCode (analyzeCode freshModState ("eval(")).2 ("eval(")).1.safe = true := by decide

/- ### Module require gating (moduleBlocker.ts lines 28-57 and 97-184) -/

/-- BLOCKED_MODULES (moduleBlocker.ts lines 28-50). -/
def BLOCKED_MODULES : List String :=
  ["fs", "fs/promises", "fs-extra", "graceful-fs",
   "child_process", "cluster", "process", "os",
   "net", "http", "https", "http2", "dgram", "dns", "tls",
   "vm", "worker_threads", "async_hooks", "inspector",
   "perf_hooks", "trace_events", "v8", "repl",
   "npm", "yarn", "pnpm",
   "mysql", "mysql2", "pg", "mongodb", "redis", "sqlite3",
   "shelljs", "node-cmd", "exec", "spawn-sync"]

/-- ALLOWED_MODULES (moduleBlocker.ts lines 53-57). -/
def ALLOWED_MODULES : List String :=
  ["crypto", "util", "events", "stream", "buffer",
   "string_decoder", "querystring", "url", "path",
   "assert", "constants", "timers", "console"]

/-- What the secure require returns for an allowed module: either a
restricted object exposing only the named operations, or the original
module unchanged. -/
inductive ProxyKind where
  | subset (ops : List String)
  | full
deriving DecidableEq

/-- ModuleSecurityManager.createSecureModuleProxy (moduleBlocker.ts lines
144-184): crypto, util and path get an explicit operation subset; every
other allowed module is returned as-is (only logged). -/
def createSecureModuleProxy (moduleName : String) : ProxyKind :=
  if moduleName == "crypto" then
    .subset ["randomBytes", "createHash", "createHmac", "timingSafeEqual"]
  else if moduleName == "util" then
    .subset ["format", "inspect", "isArray", "isDate", "isError"]
  else if moduleName == "path" then
    .subset ["join", "resolve", "basename", "dirname", "extname", "parse", "format", "sep"]
  else
    .full

/-- Outcome of a call to the secure require function. -/
inductive RequireOutcome where
  | threw (msg : String)
  | returned (proxy : ProxyKind)
deriving DecidableEq

/-- Violation pushed when a deny-listed module is required
(moduleBlocker.ts lines 104-111). -/
def blockedModuleViolation (id : String) : SecurityViolation :=
  { type := "BLOCKED_MODULE"
    severity := .CRITICAL
    module := some id
    patternSrc := none
    description := "Attempt to require blocked module: " ++ id }

/-- Violation pushed when a module outside both lists is required
(moduleBlocker.ts lines 121-128). -/
def unknownModuleViolation (id : String) : SecurityViolation :=
  { type := "BLOCKED_MODULE"
    severity := .HIGH
    module := some id
    patternSrc := none
    description := "Attempt to require unknown/restricted module: " ++ id }

/-- The secureRequire closure installed by overrideGlobalRequire
(moduleBlocker.ts lines 101-130): deny list raises with a CRITICAL
violation, allow list returns the proxy, everything else raises with a
HIGH violation (default deny). -/
def secureRequire (st : ModState) (id : String) : ModState × RequireOutcome :=
  if BLOCKED_MODULES.contains id then
    ({ st with violations := st.violations ++ [blockedModuleViolation id] },
     .threw ("SECURITY: Module " ++ id ++ " is blocked for security reasons"))
  else if ALLOWED_MODULES.contains id then
    (st, .returned (createSecureModuleProxy id))
  else
    ({ st with violations := st.violations ++ [unknownModuleViolation id] },
     .threw ("SECURITY: Module " ++ id ++ " is not whitelisted"))

/- ### Environment gating (environmentBlocker.ts) -/

/-- SENSITIVE_VARS (environmentBlocker.ts lines 24-44). -/
def SENSITIVE_VARS : List String :=
  ["API_KEY", "API_SECRET", "API_TOKEN", "ACCESS_TOKEN", "SECRET_KEY",
   "JWT_SECRET", "JWT_KEY", "OAUTH_SECRET", "GITHUB_TOKEN", "SLACK_TOKEN",
   "DATABASE_URL", "DB_PASSWORD", "DB_USER", "DB_HOST", "DB_CONNECTION",
   "MYSQL_PASSWORD", "POSTGRES_PASSWORD", "MONGODB_URI", "REDIS_PASSWORD",
   "AWS_ACCESS_KEY_ID", "AWS_SECRET_ACCESS_KEY", "AWS_SESSION_TOKEN",
   "GOOGLE_APPLICATION_CREDENTIALS", "AZURE_CLIENT_SECRET", "FIREBASE_CONFIG",
   "SESSION_SECRET", "ENCRYPTION_KEY", "PRIVATE_KEY", "CERTIFICATE",
   "WEBHOOK_SECRET", "STRIPE_SECRET_KEY", "TWILIO_AUTH_TOKEN",
   "HOME", "USER", "USERNAME", "HOSTNAME", "PWD", "PATH",
   "SHELL", "TERM", "SSH_AUTH_SOCK", "SSH_CLIENT", "SSH_CONNECTION"]

/-- ALLOWED_VARS (environmentBlocker.ts lines 47-49). -/
def ALLOWED_VARS : List String :=
  ["NODE_ENV", "NODE_VERSION", "TZ", "LANG", "LC_ALL"]

/-- JS toUpperCase restricted to the ASCII variable names used here. -/
def upperStr (s : String) : String := ⟨s.data.map Char.toUpper⟩

/-- Mutable state of the EnvironmentBlocker singleton: the violation log
and the snapshot of the original process environment taken at
construction. -/
structure EnvState where
  violations : List EnvironmentViolation
  originalProcessEnv : List (String × String)
deriving DecidableEq

/-- Exact-name lookup in the original environment snapshot. -/
def envLookup (env : List (String × String)) (k : String) : Option String :=
  match env.find? (fun p => p.1 == k) with
  | some p => some p.2
  | none => none

/-- Outcome of a property read on the secured process-env proxy. -/
inductive EnvReadOutcome where
  | threw (msg : String)
  | value (v : Option String)
deriving DecidableEq

/-- Violation pushed on a sensitive-variable read
(environmentBlocker.ts lines 87-93). -/
def sensitiveVarViolation (name : String) : EnvironmentViolation :=
  { type := "SENSITIVE_VAR_ACCESS"
    severity := .CRITICAL
    varName := some name
    description := "Attempt to access sensitive environment variable: " ++ name }

/-- Violation pushed on a read of a variable on neither list
(environmentBlocker.ts lines 106-112). -/
def blockedVarViolation (name : String) : EnvironmentViolation :=
  { type := "ENV_ACCESS_BLOCKED"
    severity := .HIGH
    varName := some name
    description := "Attempt to access non-whitelisted environment variable: " ++ name }

/-- The get trap of createSecureProcessEnvProxy (environmentBlocker.ts
lines 80-117): sensitive names (compared upper-cased) raise and record a
CRITICAL violation; allow-listed names return the original value; all
other names return undefined and record a HIGH violation. -/
def envGet (st : EnvState) (name : String) : EnvState × EnvReadOutcome :=
  if SENSITIVE_VARS.contains (upperStr name) then
    ({ st with violations := st.violations ++ [sensitiveVarViolation name] },
     .threw ("Access to environment variable " ++ name ++ " is blocked for security reasons"))
  else if ALLOWED_VARS.contains (upperStr name) then
    (st, .value (envLookup st.originalProcessEnv name))
  else
    ({ st with violations := st.violations ++ [blockedVarViolation name] },
     .value none)

/-- JS object-key assignment on a string-keyed record: overwrite the value
if the key exists, otherwise append the new key. -/
def upsert (m : List (String × String)) (k v : String) : List (String × String) :=
  if m.any (fun p => p.1 == k) then
    m.map (fun p => if p.1 == k then (k, v) else p)
  else m ++ [(k, v)]

/-- One iteration of the createSafeEnvironment loop: copy the variable
into the accumulator when it is defined in the original environment. -/
def safeEnvStep (env : List (String × String)) (acc : List (String × String))
    (varName : String) : List (String × String) :=
  match envLookup env varName with
  | some value => upsert acc varName value
  | none => acc

/-- EnvironmentBlocker.createSafeEnvironment (environmentBlocker.ts lines
219-235): copy the defined allow-listed variables, then set the two safe
defaults NODE_ENV=sandbox and SANDBOX=true. -/
def createSafeEnvironment (st : EnvState) : List (String × String) :=
  let safeEnv := ALLOWED_VARS.foldl (safeEnvStep st.originalProcessEnv) []
  upsert (upsert safeEnv ("NODE_ENV") ("sandbox")) ("SANDBOX") ("true")

/- ### TimeoutManager (part_002 lines 507-799) -/

/-- TimeoutConfig (maxExecutionTime, maxCpuTime, checkInterval). -/
structure TimeoutConfig where
  maxExecutionTime : Nat
  maxCpuTime : Nat
  checkInterval : Nat
deriving DecidableEq

/-- TimeoutManager state: its configuration and the keys of the
activeExecutions map (timer handles and per-execution wall-clock metrics
are real-time artefacts and are not modelled). -/
structure TMState where
  config : TimeoutConfig
  activeExecutions : List String
deriving DecidableEq

/-- TimeoutManager.startExecution: register the execution id (JS Map.set
keeps a present key). -/
def startExecution (tm : TMState) (executionId : String) : TMState :=
  if tm.activeExecutions.contains executionId then tm
  else { tm with activeExecutions := tm.activeExecutions ++ [executionId] }

/-- TimeoutManager.stopExecution: clear timers and delete the entry (a
missing id returns null and changes nothing). -/
def stopExecution (tm : TMState) (executionId : String) : TMState :=
  { tm with activeExecutions := tm.activeExecutions.filter (fun e => e != executionId) }

/-- TimeoutManager.terminateExecution: forced variant of stop; same effect
on the modelled state. -/
def terminateExecution (tm : TMState) (executionId : String) : TMState :=
  { tm with activeExecutions := tm.activeExecutions.filter (fun e => e != executionId) }

/-- Structured result of executeWithTimeout. -/
structure TimeoutRunResult (α : Type) where
  result : Option α
  timedOut : Bool
  reason : Option String
  success : Bool
  error : Option String
deriving DecidableEq

/-- JS truthiness of the optional numeric customTimeout argument. -/
def jsTruthyNat (o : Option Nat) : Bool :=
  match o with
  | some n => n != 0
  | none => false

/-- TimeoutManager.executeWithTimeout (part_002 lines 725-774).  The race
between the executor and the deadline timer is abstracted by the outcome
oracle: an ok value is a completed execution, an error is either an
executor fault or the Execution-timeout rejection.  The config override of
maxExecutionTime and its restoration in the finally block are modelled
exactly. -/
def executeWithTimeout {α : Type} (tm : TMState) (executionId : String)
    (customTimeout : Option Nat) (outcome : Except String α) :
    TMState × TimeoutRunResult α :=
  let originalTimeout := tm.config.maxExecutionTime
  let tm1 := if jsTruthyNat customTimeout then
      { tm with config := { tm.config with maxExecutionTime := customTimeout.getD 0 } }
    else tm
  let tm2 := startExecution tm1 executionId
  let tm3 := stopExecution tm2 executionId
  let res : TimeoutRunResult α :=
    match outcome with
    | .ok a =>
      { result := some a, timedOut := false, reason := none,
        success := true, error := none }
    | .error e =>
      { result := none, timedOut := true, reason := some e,
        success := false, error := some e }
  let tm4 := if jsTruthyNat customTimeout then
      { tm3 with config := { tm3.config with maxExecutionTime := originalTimeout } }
    else tm3
  (tm4, res)

/- ### MainSecurityManager (securityManager.ts) -/

/-- SecurityReport (securityManager.ts lines 26-44).  timestamp and
executionTime are wall-clock data and are omitted; memoryUsage is
flattened into peak/current/safe fields. -/
structure SecurityReport where
  executionId : String
  safe : Bool
  riskLevel : RiskLevel
  violations : List ReportViolation
  memoryPeak : Nat
  memoryCurrent : Nat
  memorySafe : Bool
  securityScore : Int
deriving DecidableEq

/-- Projection of a blocker violation to the report shape
(securityManager.ts lines 238-249). -/
def toReportViolation (v : SecurityViolation) : ReportViolation :=
  { type := v.type, severity := v.severity, description := v.description, module := v.module }

/-- Projection of an environment violation to the report shape
(securityManager.ts lines 250-254; no module field is copied). -/
def envToReportViolation (v : EnvironmentViolation) : ReportViolation :=
  { type := v.type, severity := v.severity, description := v.description, module := none }

/-- MainSecurityManager.createSecurityReport (securityManager.ts lines
225-289): concatenate the code-analysis violations with the module and
environment blocker logs, then compute risk level, score and the safe
flag from the severity counts. -/
def createSecurityReport (executionId : String)
    (codeViolations modLog : List SecurityViolation)
    (envLog : List EnvironmentViolation)
    (memPeak memCurrent : Nat) (memSafe : Bool) : SecurityReport :=
  let allViolations :=
    codeViolations.map toReportViolation ++ modLog.map toReportViolation
      ++ envLog.map envToReportViolation
  let criticalCount := (allViolations.filter (fun v => v.severity == Severity.CRITICAL)).length
  let highCount := (allViolations.filter (fun v => v.severity == Severity.HIGH)).length
  let mediumCount := (allViolations.filter (fun v => v.severity == Severity.MEDIUM)).length
  let riskLevel : RiskLevel :=
    if criticalCount > 0 then .CRITICAL
    else if highCount > 2 then .HIGH
    else if highCount > 0 || mediumCount > 3 then .MEDIUM
    else .LOW
  let score0 : Int := 100
  let score1 : Int := score0 - 50 * (criticalCount : Int)
  let score2 : Int := score1 - 20 * (highCount : Int)
  let score3 : Int := score2 - 10 * (mediumCount : Int)
  { executionId := executionId
    safe := criticalCount == 0 && highCount == 0
    riskLevel := riskLevel
    violations := allViolations
    memoryPeak := memPeak
    memoryCurrent := memCurrent
    memorySafe := memSafe
    securityScore := max 0 score3 }

/-- The security-relevant part of SecurityConfig (securityManager.ts lines
16-24; the two enableXxxBlocking flags only gate one-time initialization
and are omitted). -/
structure SecurityConfigM where
  strictMode : Bool
  enableTimeoutManagement : Bool
  enableMemoryMonitoring : Bool
  maxExecutionTime : Nat
deriving DecidableEq

/-- State of the MainSecurityManager singleton and its collaborators.
memMonitoring is the memory monitor isMonitoring flag; memCritical says
whether a memory sample taken now would breach a CRITICAL ceiling (the
ambient process memory, not derived from the executed code); memPeak is
the peak heap the monitor would report; memSafe is the ambient
isMemoryUsageSafe answer. -/
structure MgrState where
  initialized : Bool
  config : SecurityConfigM
  modState : ModState
  envState : EnvState
  tm : TMState
  memMonitoring : Bool
  memCritical : Bool
  memPeak : Nat
  memSafe : Bool
deriving DecidableEq

/-- SecureExecutionContext (securityManager.ts lines 46-52). -/
structure SecureExecutionContext where
  executionId : String
  code : String
  language : String
  timeout : Option Nat
  memoryLimit : Option Nat
deriving DecidableEq

/-- The structured result executeSecurely returns to its caller. -/
structure SecResult (α : Type) where
  result : Option α
  securityReport : SecurityReport
  success : Bool
  error : Option String
deriving DecidableEq

instance {ε β : Type} [DecidableEq ε] [DecidableEq β] : DecidableEq (Except ε β) :=
  fun a b =>
    match a, b with
    | .error x, .error y =>
      match decEq x y with
      | isTrue h => isTrue (by rw [h])
      | isFalse h => isFalse (by intro hh; injection hh; contradiction)
    | .ok x, .ok y =>
      match decEq x y with
      | isTrue h => isTrue (by rw [h])
      | isFalse h => isFalse (by intro hh; injection hh; contradiction)
    | .error _, .ok _ => isFalse (fun h => Except.noConfusion h)
    | .ok _, .error _ => isFalse (fun h => Except.noConfusion h)

/-- One run of executeSecurely: the final manager state, the outcome (ok
is the structured result, error is an exception escaping to the caller),
and whether the executor unit was ever invoked. -/
structure ExecRun (α : Type) where
  state : MgrState
  outcome : Except String (SecResult α)
  executorCalled : Bool
deriving DecidableEq

/-- Message of the error thrown by the memory monitor when the initial
sample breaches a CRITICAL ceiling (memoryMonitor.ts line 631). -/
def memLimitMsg : String := "Memory limit exceeded"

/-- MemoryMonitor.stopMonitoring: when monitoring, clear the flag and
return the peak metrics record, whose peakHeapUsed is the tracked peak and
whose heapUsed stays at its initial 0; otherwise return empty metrics. -/
def stopMonitoringPeak (st : MgrState) : (Nat × Nat) × MgrState :=
  if st.memMonitoring then ((st.memPeak, 0), { st with memMonitoring := false })
  else ((0, 0), st)

/-- MainSecurityManager.emergencyCleanup (securityManager.ts lines
294-314): terminate the execution in the timeout manager and stop memory
monitoring. -/
def emergencyCleanup (st : MgrState) (executionId : String) : MgrState :=
  let st1 := { st with tm := terminateExecution st.tm executionId }
  { st1 with memMonitoring := false }

/-- JS (a || b) for the optional numeric timeout argument. -/
def jsOrNat (o : Option Nat) (d : Nat) : Nat :=
  match o with
  | some n => if n == 0 then d else n
  | none => d

/-- MainSecurityManager.executeSecurely (securityManager.ts lines
132-220).  The executor unit is abstracted by its outcome oracle: ok is a
completed execution, error is an executor fault or (under timeout
management) the Execution-timeout rejection.  Control flow, the strict
mode early return, the uninitialized throw, the pre-try memory-monitor
throw, the report assembly from the shared logs and the catch branch are
modelled exactly. -/
def executeSecurely {α : Type} (st : MgrState) (ctx : SecureExecutionContext)
    (executorOutcome : Except String α) : ExecRun α :=
  if !st.initialized then
    { state := st, outcome := .error ("Security manager not initialized"), executorCalled := false }
  else
    let pr := analyzeCode st.modState ctx.code
    let codeAnalysis := pr.1
    let mod1 := pr.2
    let st1 := { st with modState := mod1 }
    if !codeAnalysis.safe && st.config.strictMode then
      { state := st1
        outcome := .ok
          { result := none
            securityReport := createSecurityReport ctx.executionId codeAnalysis.violations
              mod1.violations st1.envState.violations 0 0 st1.memSafe
            success := false
            error := some ("Code failed security analysis - contains dangerous patterns") }
        executorCalled := false }
    else if st.config.enableMemoryMonitoring && !st1.memMonitoring && st1.memCritical then
      { state := { st1 with memMonitoring := true }
        outcome := .error memLimitMsg
        executorCalled := false }
    else
      let st2 := if st.config.enableMemoryMonitoring && !st1.memMonitoring then
          { st1 with memMonitoring := true } else st1
      let st3 := if st.config.enableTimeoutManagement then
          { st2 with tm := startExecution st2.tm ctx.executionId } else st2
      if st.config.enableTimeoutManagement then
        let twt := executeWithTimeout st3.tm ctx.executionId
          (some (jsOrNat ctx.timeout st.config.maxExecutionTime)) executorOutcome
        let twr := twt.2
        let st4 := { st3 with tm := twt.1 }
        let mm := if st.config.enableMemoryMonitoring then
            stopMonitoringPeak st4 else ((0, 0), st4)
        let memPair := mm.1
        let st5 := mm.2
        let st6 := { st5 with tm := stopExecution st5.tm ctx.executionId }
        let report := createSecurityReport ctx.executionId codeAnalysis.violations
          st6.modState.violations st6.envState.violations memPair.1 memPair.2 st6.memSafe
        { state := st6
          outcome := .ok { result := twr.result, securityReport := report,
                           success := twr.success, error := twr.error }
          executorCalled := true }
      else
        match executorOutcome with
        | .ok a =>
          let mm := if st.config.enableMemoryMonitoring then
              stopMonitoringPeak st3 else ((0, 0), st3)
          let memPair := mm.1
          let st5 := mm.2
          let report := createSecurityReport ctx.executionId codeAnalysis.violations
            st5.modState.violations st5.envState.violations memPair.1 memPair.2 st5.memSafe
          { state := st5
            outcome := .ok { result := some a, securityReport := report,
                             success := true, error := none }
            executorCalled := true }
        | .error e =>
          let stE := emergencyCleanup st3 ctx.executionId
          let report := createSecurityReport ctx.executionId codeAnalysis.violations
            stE.modState.violations stE.envState.violations 0 0 stE.memSafe
          { state := stE
            outcome := .ok { result := none, securityReport := report,
                             success := false, error := some e }
            executorCalled := true }

/- ### Concrete fixtures for witnesses and counterexamples -/

/-- The default SecurityConfig of the MainSecurityManager constructor
(securityManager.ts lines 62-70). -/
def defaultConfig : SecurityConfigM :=
  { strictMode := true
    enableTimeoutManagement := true
    enableMemoryMonitoring := true
    maxExecutionTime := 30000 }

/-- An environment blocker state with an empty log and an empty original
environment snapshot. -/
def emptyEnvState : EnvState := { violations := [], originalProcessEnv := [] }

/-- The TimeoutManager built by the MainSecurityManager constructor
(securityManager.ts lines 72-76). -/
def freshTM : TMState :=
  { config := { maxExecutionTime := 30000, maxCpuTime := 20000, checkInterval := 1000 }
    activeExecutions := [] }

/-- An initialized manager in its freshly constructed state. -/
def initState : MgrState :=
  { initialized := true
    config := defaultConfig
    modState := freshModState
    envState := emptyEnvState
    tm := freshTM
    memMonitoring := false
    memCritical := false
    memPeak := 0
    memSafe := true }

/-- The same manager before initialize() has run. -/
def uninitState : MgrState := { initState with initialized := false }

/-- An execution request whose code requires the fs module. -/
def ctxFs : SecureExecutionContext :=
  { executionId := "exec-1", code := requireFsCode, language := "javascript"
    timeout := none, memoryLimit := none }

/-- An execution request with benign code. -/
def ctxBenign : SecureExecutionContext :=
  { executionId := "exec-2", code := "1 + 1", language := "javascript"
    timeout := none, memoryLimit := none }

/-- First run of the isolation scenario: the fs-requiring code under the
fresh initialized manager. -/
def fsRun : ExecRun Nat := executeSecurely initState ctxFs (Except.ok 0)

/-- Second run of the isolation scenario: benign code under the manager
state left by the first run. -/
def sndRun : ExecRun Nat := executeSecurely fsRun.state ctxBenign (Except.ok 0)

/-- The structured result of the second run of the isolation scenario. -/
def sndRes : SecResult Nat :=
  (sndRun.outcome.toOption).getD
    { result := none
      securityReport := createSecurityReport ("") [] [] [] 0 0 false
      success := false
      error := none }

example : fsRun.executorCalled = false := by decide

example :
    (fsRun.outcome.toOption.map (fun r => r.success)) = some false := by decide

example :
    (sndRun.outcome.toOption.map (fun r => r.securityReport.violations))
      = some [toReportViolation (mkPatternViolation (requirePatternSrc ("fs")))] := by decide

/- ### Helper lemmas -/

theorem startExecution_config (tm : TMState) (executionId : String) :
    (startExecution tm executionId).config = tm.config := by
  unfold startExecution; split <;> rfl

theorem stopExecution_config (tm : TMState) (executionId : String) :
    (stopExecution tm executionId).config = tm.config := rfl

/- ### Claims -/

/-- C10: when executeWithTimeout is called with a custom timeout, the
TimeoutManager configured maxExecutionTime after the call equals its value
before the call, on every exit path (normal completion, executor error, or
timeout rejection): the finally block restores the override, and without an
override the value is never changed. -/
theorem C10_executeWithTimeout_restores_maxExecutionTime {α : Type} (tm : TMState)
    (executionId : String) (customTimeout : Option Nat) (outcome : Except String α) :
    ((executeWithTimeout tm executionId customTimeout outcome).1).config.maxExecutionTime
      = tm.config.maxExecutionTime := by
  unfold executeWithTimeout
  by_cases h : jsTruthyNat customTimeout = true <;>
    cases outcome <;>
      simp [h, startExecution_config, stopExecution_config]

/-- C6 counterexample: analyzeCode is neither deterministic across calls
nor free of observable state change: on the input eval( the first call
reports safe=false, the second call on the same input reports safe=true
(the g-flag regex lastIndex advanced), and the first call grew the shared
violation log. -/
theorem C6_counterexample_two_calls_differ :
    (analyzeCode freshModState ("eval(")).1.safe = false ∧
    (analyzeCode (analyzeCode freshModState ("eval(")).2 ("eval(")).1.safe = true ∧
    freshModState.violations = [] ∧
    (analyzeCode freshModState ("eval(")).2.violations ≠ [] := by decide

/-- C6 amended: analyzeCode is a pure function of the analyzer state and
the input, but a call changes that state: it appends exactly its returned
findings to the shared violation log (and advances the pattern regexes),
so two successive calls with the same input need not return equal
results. -/
theorem C6_analyzeCode_appends_to_log (st : ModState) (code : String) :
    (analyzeCode st code).2.violations
      = st.violations ++ (analyzeCode st code).1.violations := rfl

/-- C4: the securityScore of a report is max(0, 100 - 50c - 20h - 10m)
where c, h, m count the CRITICAL, HIGH and MEDIUM entries of the report
violation multiset. -/
theorem C4_securityScore_formula (executionId : String)
    (codeViolations modLog : List SecurityViolation) (envLog : List EnvironmentViolation)
    (memPeak memCurrent : Nat) (memSafe : Bool) :
    (createSecurityReport executionId codeViolations modLog envLog
        memPeak memCurrent memSafe).securityScore
      = max 0 (100
          - 50 * (((createSecurityReport executionId codeViolations modLog envLog
              memPeak memCurrent memSafe).violations.countP
                (fun v => v.severity == Severity.CRITICAL) : Int))
          - 20 * (((createSecurityReport executionId codeViolations modLog envLog
              memPeak memCurrent memSafe).violations.countP
                (fun v => v.severity == Severity.HIGH) : Int))
          - 10 * (((createSecurityReport executionId codeViolations modLog envLog
              memPeak memCurrent memSafe).violations.countP
                (fun v => v.severity == Severity.MEDIUM) : Int))) := by
  simp [createSecurityReport, List.countP_eq_length_filter]

/-- C5: riskLevel is a deterministic function of the violation multiset of
the report, namely CRITICAL if any critical entry, else HIGH if more than
two high entries, else MEDIUM if any high entry or more than three medium
entries, else LOW; and the safe flag holds iff there are no critical and
no high entries. -/
theorem C5_riskLevel_and_safe (executionId : String)
    (codeViolations modLog : List SecurityViolation) (envLog : List EnvironmentViolation)
    (memPeak memCurrent : Nat) (memSafe : Bool) :
    (createSecurityReport executionId codeViolations modLog envLog
        memPeak memCurrent memSafe).riskLevel
      = (if 0 < (createSecurityReport executionId codeViolations modLog envLog
            memPeak memCurrent memSafe).violations.countP
              (fun v => v.severity == Severity.CRITICAL) then RiskLevel.CRITICAL
         else if 2 < (createSecurityReport executionId codeViolations modLog envLog
            memPeak memCurrent memSafe).violations.countP
              (fun v => v.severity == Severity.HIGH) then RiskLevel.HIGH
         else if 0 < (createSecurityReport executionId codeViolations modLog envLog
            memPeak memCurrent memSafe).violations.countP
              (fun v => v.severity == Severity.HIGH)
           ∨ 3 < (createSecurityReport executionId codeViolations modLog envLog
            memPeak memCurrent memSafe).violations.countP
              (fun v => v.severity == Severity.MEDIUM) then RiskLevel.MEDIUM
         else RiskLevel.LOW)
    ∧ ((createSecurityReport executionId codeViolations modLog envLog
          memPeak memCurrent memSafe).safe = true
        ↔ (createSecurityReport executionId codeViolations modLog envLog
            memPeak memCurrent memSafe).violations.countP
              (fun v => v.severity == Severity.CRITICAL) = 0
          ∧ (createSecurityReport executionId codeViolations modLog envLog
              memPeak memCurrent memSafe).violations.countP
                (fun v => v.severity == Severity.HIGH) = 0) := by
  constructor
  · simp [createSecurityReport, List.countP_eq_length_filter]
  · simp [createSecurityReport, List.countP_eq_length_filter]

/-- C7 counterexample: events is allow-listed, yet the secure require
returns the original module unrestricted rather than a restricted proxy
exposing only a named operation subset. -/
theorem C7_counterexample_events_unrestricted :
    ALLOWED_MODULES.contains ("events") = true ∧
    (secureRequire freshModState ("events")).2 = RequireOutcome.returned ProxyKind.full ∧
    ¬ ∃ ops, (secureRequire freshModState ("events")).2
        = RequireOutcome.returned (ProxyKind.subset ops) := by
  refine ⟨by decide, by decide, ?_⟩
  rintro ⟨ops, h⟩
  have hfull : (secureRequire freshModState ("events")).2
      = RequireOutcome.returned ProxyKind.full := by decide
  rw [hfull] at h
  injection h with h2
  exact ProxyKind.noConfusion h2

/-- C7 amended: deny-listed module names raise and record a CRITICAL
violation; allow-listed names return a proxy without touching the log,
where exactly crypto, util and path get a restricted operation subset and
every other allow-listed module comes back unrestricted; all remaining
names raise (default deny) and record a HIGH violation. -/
theorem C7_secureRequire_gate (st : ModState) (id : String) :
    if BLOCKED_MODULES.contains id then
      (∃ m, (secureRequire st id).2 = RequireOutcome.threw m) ∧
      (secureRequire st id).1.violations = st.violations ++ [blockedModuleViolation id] ∧
      (blockedModuleViolation id).severity = Severity.CRITICAL
    else if ALLOWED_MODULES.contains id then
      (secureRequire st id).2 = RequireOutcome.returned (createSecureModuleProxy id) ∧
      (secureRequire st id).1 = st ∧
      ((id = "crypto" ∨ id = "util" ∨ id = "path")
        ↔ ∃ ops, createSecureModuleProxy id = ProxyKind.subset ops)
    else
      (∃ m, (secureRequire st id).2 = RequireOutcome.threw m) ∧
      (secureRequire st id).1.violations = st.violations ++ [unknownModuleViolation id] ∧
      (unknownModuleViolation id).severity = Severity.HIGH := by
  by_cases hb : id ∈ BLOCKED_MODULES
  · simp [secureRequire, hb, blockedModuleViolation]
  · by_cases ha : id ∈ ALLOWED_MODULES
    · simp only [secureRequire, List.contains, List.elem_iff, hb, ha, if_true, if_false]
      refine ⟨trivial, trivial, ?_⟩
      constructor
      · rintro (rfl | rfl | rfl)
        · exact ⟨["randomBytes", "createHash", "createHmac", "timingSafeEqual"], by decide⟩
        · exact ⟨["format", "inspect", "isArray", "isDate", "isError"], by decide⟩
        · exact ⟨["join", "resolve", "basename", "dirname", "extname", "parse",
            "format", "sep"], by decide⟩
      · rintro ⟨ops, hops⟩
        unfold createSecureModuleProxy at hops
        split_ifs at hops with h1 h2 h3
        · left; exact eq_of_beq h1
        · right; left; exact eq_of_beq h2
        · right; right; exact eq_of_beq h3
    · simp [secureRequire, hb, ha, unknownModuleViolation]

/-- C8: a read through the gated environment view behaves by cases on the
upper-cased name: sensitive names raise and record a CRITICAL violation,
allow-listed names return the original value without touching the log,
and every other name reads as undefined and records a HIGH violation. -/
theorem C8_envGet_gate (st : EnvState) (name : String) :
    if SENSITIVE_VARS.contains (upperStr name) then
      (∃ m, (envGet st name).2 = EnvReadOutcome.threw m) ∧
      (envGet st name).1.violations = st.violations ++ [sensitiveVarViolation name] ∧
      (sensitiveVarViolation name).severity = Severity.CRITICAL
    else if ALLOWED_VARS.contains (upperStr name) then
      (envGet st name).2 = EnvReadOutcome.value (envLookup st.originalProcessEnv name) ∧
      (envGet st name).1 = st
    else
      (envGet st name).2 = EnvReadOutcome.value none ∧
      (envGet st name).1.violations = st.violations ++ [blockedVarViolation name] ∧
      (blockedVarViolation name).severity = Severity.HIGH := by
  by_cases hs : upperStr name ∈ SENSITIVE_VARS
  · simp [envGet, hs, sensitiveVarViolation]
  · by_cases ha : upperStr name ∈ ALLOWED_VARS
    · simp [envGet, hs, ha]
    · simp [envGet, hs, ha, blockedVarViolation]

/-- C9 counterexample: on an empty original environment the safe subset
still contains the key SANDBOX, which is not an allow-listed environment
variable name. -/
theorem C9_counterexample_sandbox_key :
    createSafeEnvironment emptyEnvState
        = [("NODE_ENV", "sandbox"), ("SANDBOX", "true")] ∧
    ALLOWED_VARS.contains ("SANDBOX") = false := by decide

theorem upsert_keys (m : List (String × String)) (a v k : String)
    (h : k ∈ (upsert m a v).map Prod.fst) :
    k ∈ m.map Prod.fst ∨ k = a := by
  unfold upsert at h
  split at h
  · rw [List.map_map] at h
    rcases List.mem_map.mp h with ⟨p, hp, hk⟩
    by_cases hpk : (p.1 == a) = true
    · right
      simp only [Function.comp, hpk, if_true] at hk
      exact hk.symm
    · left
      simp only [Function.comp, hpk, if_false] at hk
      exact hk ▸ List.mem_map.mpr ⟨p, hp, rfl⟩
  · rw [List.map_append] at h
    rcases List.mem_append.mp h with h1 | h1
    · left; exact h1
    · right; simpa using h1

theorem safeEnv_foldl_keys (vars : List String) :
    ∀ (env acc : List (String × String)) (k : String),
      k ∈ ((vars.foldl (safeEnvStep env) acc).map Prod.fst) →
      k ∈ acc.map Prod.fst ∨ k ∈ vars := by
  induction vars with
  | nil => intro env acc k h; left; exact h
  | cons x xs ih =>
    intro env acc k h
    rw [List.foldl_cons] at h
    rcases ih env (safeEnvStep env acc x) k h with h1 | h1
    · unfold safeEnvStep at h1
      cases hl : envLookup env x with
      | some value =>
        rw [hl] at h1
        rcases upsert_keys _ _ _ _ h1 with h2 | h2
        · left; exact h2
        · right; rw [h2]; exact List.mem_cons_self x xs
      | none =>
        rw [hl] at h1; left; exact h1
    · right; exact List.mem_cons_of_mem x h1

/-- C9 amended: every key of the safe environment subset is either an
allow-listed environment variable name or the injected fixed default key
SANDBOX. -/
theorem C9_safeEnvironment_keys (st : EnvState) (k : String)
    (h : k ∈ (createSafeEnvironment st).map Prod.fst) :
    k ∈ ALLOWED_VARS ∨ k = "SANDBOX" := by
  unfold createSafeEnvironment at h
  rcases upsert_keys _ _ _ _ h with h1 | h1
  · rcases upsert_keys _ _ _ _ h1 with h2 | h2
    · rcases safeEnv_foldl_keys ALLOWED_VARS st.originalProcessEnv [] k h2 with h3 | h3
      · simp at h3
      · left; exact h3
    · left; rw [h2]; decide
  · right; exact h1

theorem C9_safeEnvironment_keys_witness :
    ("SANDBOX" ∈ (createSafeEnvironment emptyEnvState).map Prod.fst) ∧
    ("SANDBOX" ∈ ALLOWED_VARS ∨ "SANDBOX" = "SANDBOX") :=
  ⟨by decide, C9_safeEnvironment_keys emptyEnvState "SANDBOX" (by decide)⟩

/-- C1 counterexample: in the uninitialized manager state executeSecurely
throws (rejects with an exception) rather than returning a structured
result. -/
theorem C1_counterexample_uninitialized_throws :
    (executeSecurely uninitState ctxBenign (Except.ok (0 : Nat))).outcome
      = Except.error ("Security manager not initialized") := by decide

/-- C1 amended: once the manager is initialized and the ambient memory
sample taken when monitoring starts does not breach a critical ceiling,
executeSecurely returns a structured result for every context and every
executor outcome and never throws; in the uninitialized state it throws. -/
theorem C1_executeSecurely_structured_when_initialized {α : Type} (st : MgrState)
    (ctx : SecureExecutionContext) (executorOutcome : Except String α)
    (hinit : st.initialized = true) (hmem : st.memCritical = false) :
    ∃ res, (executeSecurely st ctx executorOutcome).outcome = Except.ok res := by
  unfold executeSecurely
  by_cases hsafe : (!(analyzeCode st.modState ctx.code).1.safe && st.config.strictMode) = true
  · simp [hinit, hsafe]
  · by_cases htm : st.config.enableTimeoutManagement = true
    · simp [hinit, hsafe, hmem, htm]
    · cases executorOutcome with
      | ok a => simp [hinit, hsafe, hmem, htm]
      | error e => simp [hinit, hsafe, hmem, htm]

theorem C1_executeSecurely_structured_when_initialized_witness :
    initState.initialized = true ∧ initState.memCritical = false ∧
    ∃ res, (executeSecurely initState ctxBenign (Except.ok (0 : Nat))).outcome
      = Except.ok res :=
  ⟨rfl, rfl,
    C1_executeSecurely_structured_when_initialized initState ctxBenign (Except.ok 0) rfl rfl⟩

theorem patternScan_mem_high (code : String) :
    ∀ (ps : List (String × RE)) (lis : List Nat),
      lis = List.replicate ps.length 0 →
      (∃ p ∈ ps, (regexTest p.2 0 code).1 = true) →
      ∃ v ∈ (patternScan code ps lis).1, v.severity = Severity.HIGH := by
  intro ps
  induction ps with
  | nil =>
    intro lis _ hex
    obtain ⟨p, hp, _⟩ := hex
    exact absurd hp (List.not_mem_nil p)
  | cons hd tl ih =>
    intro lis hl hex
    obtain ⟨src, re⟩ := hd
    subst hl
    simp only [List.length_cons, List.replicate_succ]
    obtain ⟨p, hp, hhit⟩ := hex
    rcases List.mem_cons.mp hp with rfl | hptl
    · refine ⟨mkPatternViolation src, ?_, rfl⟩
      simp only [patternScan]
      exact List.mem_append_left _ (by simp [hhit])
    · obtain ⟨v, hv, hsev⟩ := ih (List.replicate tl.length 0) rfl ⟨p, hptl, hhit⟩
      refine ⟨v, ?_, hsev⟩
      simp only [patternScan]
      exact List.mem_append_right _ hv

/-- C2 counterexample: for the denylisted filesystem import the strict
manager refuses the execution without invoking the executor, but the
report contains no CRITICAL violation: the static findings are HIGH. -/
theorem C2_counterexample_no_critical_violation :
    fsRun.executorCalled = false ∧
    (fsRun.outcome.toOption.map (fun r =>
        (r.success,
         r.securityReport.violations.length == 0,
         r.securityReport.violations.all (fun v => !(v.severity == Severity.CRITICAL)))))
      = some (false, false, true) := by decide

/-- C2 amended: for every source string matching a denylisted
capability-acquisition pattern, executeSecurely on an initialized strict
manager with fresh pattern state returns success=false, its report
contains at least one violation of severity HIGH (not CRITICAL), and the
executor is never invoked. -/
theorem C2_strict_mode_blocks_denylisted_imports {α : Type} (st : MgrState)
    (ctx : SecureExecutionContext) (executorOutcome : Except String α)
    (hinit : st.initialized = true) (hstrict : st.config.strictMode = true)
    (hfresh : st.modState.lastIndices = List.replicate 12 0)
    (hmatch : ∃ p ∈ capabilityAcquisitionPatterns, (regexTest p.2 0 ctx.code).1 = true) :
    (executeSecurely st ctx executorOutcome).executorCalled = false ∧
    ∃ res, (executeSecurely st ctx executorOutcome).outcome = Except.ok res ∧
      res.success = false ∧
      ∃ v ∈ res.securityReport.violations, v.severity = Severity.HIGH := by
  have hmatch12 : ∃ p ∈ DANGEROUS_PATTERNS, (regexTest p.2 0 ctx.code).1 = true := by
    obtain ⟨p, hp, hh⟩ := hmatch
    exact ⟨p, List.mem_of_mem_take hp, hh⟩
  have hlen : st.modState.lastIndices = List.replicate DANGEROUS_PATTERNS.length 0 := by
    rw [hfresh]; rfl
  obtain ⟨v, hv, hsev⟩ :=
    patternScan_mem_high ctx.code DANGEROUS_PATTERNS st.modState.lastIndices hlen hmatch12
  have hvfound : v ∈ (analyzeCode st.modState ctx.code).1.violations := by
    simp only [analyzeCode]
    exact List.mem_append_left _ hv
  have hunsafe : (analyzeCode st.modState ctx.code).1.safe = false := by
    have hvin : v ∈ ((analyzeCode st.modState ctx.code).1.violations.filter
        (fun v => v.severity == Severity.CRITICAL || v.severity == Severity.HIGH)) :=
      List.mem_filter.mpr ⟨hvfound, by simp [hsev]⟩
    simp only [analyzeCode] at hvin ⊢
    rw [beq_eq_false_iff_ne]
    intro hlen0
    exact (List.ne_nil_of_mem hvin) (List.length_eq_zero.mp hlen0)
  constructor
  · simp [executeSecurely, hinit, hunsafe, hstrict]
  · simp only [executeSecurely, hinit, hunsafe, hstrict, Bool.not_false, Bool.and_self,
      if_true, Bool.not_true, Bool.false_eq_true, if_false]
    refine ⟨_, rfl, rfl, toReportViolation v, ?_, hsev⟩
    simp only [createSecurityReport]
    exact List.mem_append_left _
      (List.mem_append_left _ (List.mem_map_of_mem _ hvfound))

theorem C2_strict_mode_blocks_denylisted_imports_witness :
    initState.initialized = true ∧ initState.config.strictMode = true ∧
    initState.modState.lastIndices = List.replicate 12 0 ∧
    (∃ p ∈ capabilityAcquisitionPatterns, (regexTest p.2 0 ctxFs.code).1 = true) ∧
    ((executeSecurely initState ctxFs (Except.ok (0 : Nat))).executorCalled = false ∧
     ∃ res, (executeSecurely initState ctxFs (Except.ok (0 : Nat))).outcome = Except.ok res ∧
       res.success = false ∧
       ∃ v ∈ res.securityReport.violations, v.severity = Severity.HIGH) :=
  ⟨rfl, rfl, rfl,
    ⟨(requirePatternSrc ("fs"), requirePattern ("fs")), by decide, by decide⟩,
    C2_strict_mode_blocks_denylisted_imports initState ctxFs (Except.ok 0) rfl rfl rfl
      ⟨(requirePatternSrc ("fs"), requirePattern ("fs")), by decide, by decide⟩⟩

/-- C3 counterexample: two sequential executions with distinct ids; the
violation recorded during the first (the fs import pattern hit) appears in
the report of the second, benign execution, because the blocker logs are a
shared singleton merged into every report. -/
theorem C3_counterexample_cross_execution_leak :
    fsRun.state.modState.violations
        = [mkPatternViolation (requirePatternSrc ("fs"))] ∧
    (sndRun.outcome.toOption.map (fun r => r.securityReport.violations))
      = some [toReportViolation (mkPatternViolation (requirePatternSrc ("fs")))] ∧
    ctxFs.executionId ≠ ctxBenign.executionId := by decide

theorem ite_modState (c : Prop) [Decidable c] (a b : MgrState) :
    (if c then a else b).modState = if c then a.modState else b.modState :=
  apply_ite MgrState.modState c a b

theorem ite_envState (c : Prop) [Decidable c] (a b : MgrState) :
    (if c then a else b).envState = if c then a.envState else b.envState :=
  apply_ite MgrState.envState c a b

theorem ite_pair_snd (c : Prop) [Decidable c] (a b : (Nat × Nat) × MgrState) :
    (if c then a else b).2 = if c then a.2 else b.2 :=
  apply_ite Prod.snd c a b

theorem stopMonitoringPeak_modState (st : MgrState) :
    ((stopMonitoringPeak st).2).modState = st.modState := by
  unfold stopMonitoringPeak; split <;> rfl

theorem stopMonitoringPeak_envState (st : MgrState) :
    ((stopMonitoringPeak st).2).envState = st.envState := by
  unfold stopMonitoringPeak; split <;> rfl

/-- C3 amended: the report of an execution is not isolated: every
violation already present in the shared module-blocker log before the call
(for example one recorded during an earlier execution with a different id)
is included in the returned SecurityReport. -/
theorem C3_report_includes_prior_log {α : Type} (st : MgrState) (ctx : SecureExecutionContext)
    (executorOutcome : Except String α) (res : SecResult α)
    (hok : (executeSecurely st ctx executorOutcome).outcome = Except.ok res)
    (v : SecurityViolation) (hv : v ∈ st.modState.violations) :
    toReportViolation v ∈ res.securityReport.violations := by
  have hmod1 : v ∈ (analyzeCode st.modState ctx.code).2.violations := by
    simp only [analyzeCode]
    exact List.mem_append_left _ hv
  cases hinit : st.initialized with
  | false =>
    simp [executeSecurely, hinit] at hok
  | true =>
    by_cases hsafe : (!(analyzeCode st.modState ctx.code).1.safe && st.config.strictMode) = true
    · simp only [executeSecurely, hinit, hsafe, Bool.not_true, Bool.false_eq_true, if_false,
        if_true] at hok
      injection hok with h
      subst h
      simp only [createSecurityReport]
      exact List.mem_append_left _
        (List.mem_append_right _ (List.mem_map_of_mem _ hmod1))
    · by_cases hm : (st.config.enableMemoryMonitoring && !st.memMonitoring
          && st.memCritical) = true
      · simp [executeSecurely, hinit, hsafe, hm] at hok
      · by_cases htm : st.config.enableTimeoutManagement = true
        · simp only [executeSecurely, hinit, hsafe, hm, htm, Bool.not_true, Bool.false_eq_true,
            if_false, if_true] at hok
          injection hok with h
          subst h
          simp only [createSecurityReport, ite_pair_snd, ite_modState, ite_envState,
            stopMonitoringPeak_modState, stopMonitoringPeak_envState, ite_self]
          exact List.mem_append_left _
            (List.mem_append_right _ (List.mem_map_of_mem _ hmod1))
        · cases executorOutcome with
          | ok a =>
            simp only [executeSecurely, hinit, hsafe, hm, htm, Bool.not_true,
              Bool.false_eq_true, if_false, if_true] at hok
            injection hok with h
            subst h
            simp only [createSecurityReport, ite_pair_snd, ite_modState, ite_envState,
              stopMonitoringPeak_modState, stopMonitoringPeak_envState, ite_self]
            exact List.mem_append_left _
              (List.mem_append_right _ (List.mem_map_of_mem _ hmod1))
          | error e =>
            simp only [executeSecurely, hinit, hsafe, hm, htm, Bool.not_true,
              Bool.false_eq_true, if_false, if_true] at hok
            injection hok with h
            subst h
            simp only [createSecurityReport, emergencyCleanup, terminateExecution,
              ite_modState, ite_envState, ite_self]
            exact List.mem_append_left _
              (List.mem_append_right _ (List.mem_map_of_mem _ hmod1))


theorem C3_report_includes_prior_log_witness :
    ((executeSecurely fsRun.state ctxBenign (Except.ok (0 : Nat))).outcome
        = Except.ok sndRes) ∧
    (mkPatternViolation (requirePatternSrc ("fs")) ∈ fsRun.state.modState.violations) ∧
    toReportViolation (mkPatternViolation (requirePatternSrc ("fs")))
      ∈ sndRes.securityReport.violations :=
  ⟨by decide, by decide,
    C3_report_includes_prior_log fsRun.state ctxBenign (Except.ok 0) sndRes (by decide)
      (mkPatternViolation (requirePatternSrc ("fs"))) (by decide)⟩
